import Mathlib

/-!
Shallow embedding of the document service in `app/main.py`: a cache-aside
document store over a pluggable durable backend (S3 or DynamoDB, selected by
`STORAGE_TYPE`), with a best-effort Redis cache and a health endpoint.

Modelling conventions:
* The durable store and the cache are finite key-value maps represented as
  functions `String → Option String`.
* Every external call that can raise in Python (`put_object`, `get_object`,
  redis `get`/`setex`/`delete`/`ping`, the health probes) takes an explicit
  Boolean fault flag: `true` means "this call raises".  The surrounding
  Python `try`/`except` blocks are mirrored by the value the embedded
  function returns when the flag is set.
* Wall-clock data (`created_at`) is outside the embedding; responses are
  modelled by their id/content/status-code payload.
-/

set_option maxHeartbeats 1000000

namespace DocumentService

/-- `MAX_CONTENT_SIZE = 100 * 1024` from the configuration block. -/
def MAX_CONTENT_SIZE : Nat := 100 * 1024

/-- Process configuration as read at startup (`STORAGE_TYPE`, `CACHE_ENABLED`)
together with which global client handles are non-`None`
(`s3_client`, `dynamodb`).  In the source, `s3_client` is initialized iff
`STORAGE_TYPE == "s3"` and `dynamodb` iff `STORAGE_TYPE == "dynamodb"`, and an
unrecognized `STORAGE_TYPE` raises `RuntimeError` at import time; the
operation functions re-check all of this themselves, so the embedding keeps
the fields independent. -/
structure Config where
  storageType : String
  s3ClientInit : Bool
  dynamodbInit : Bool
  cacheEnabled : Bool
  deriving DecidableEq

/-- Contents of the active durable backend (the S3 bucket or the DynamoDB
table), as a map from backend key to stored document body. -/
structure StorageState where
  docs : String → Option String

/-- The cache: whether `cache_client` is non-`None` (`present`) and the live
(unexpired) redis keys with their values. -/
structure CacheState where
  present : Bool
  entries : String → Option String

/-- Fault flags for the external calls one request can make; `true` means the
corresponding client call raises an exception on this request. -/
structure Faults where
  storagePut : Bool
  storageGet : Bool
  cacheGet : Bool
  cacheSet : Bool
  cacheDelete : Bool

/-- A request during which no external call raises. -/
def noFaults : Faults := ⟨false, false, false, false, false⟩

/-- S3 object key for a document: `f"documents/{document_id}"`. -/
def s3Key (document_id : String) : String := "documents/" ++ document_id

/-- Redis key for a document: `f"document:{document_id}"`. -/
def cacheKey (document_id : String) : String := "document:" ++ document_id

/-- Python truthiness of an `Optional[str]`: `None` and `""` are falsy. -/
def pyTruthy : Option String → Bool
  | none => false
  | some s => !s.isEmpty

/-- `store_document` (main.py lines 98-141).  Writes the content under the
backend-specific key and returns `True`; every exception (uninitialized
client, failed `put_object`/`put_item`) is caught and yields `False`, and
`STORAGE_TYPE` of `"rds"` or anything unrecognized returns `False`.  The
returned state is the durable store after the call. -/
def store_document (cfg : Config) (st : StorageState) (fault : Bool)
    (document_id content : String) : Bool × StorageState :=
  if cfg.storageType = "s3" then
    if ¬ cfg.s3ClientInit then (false, st)
    else if fault then (false, st)
    else (true, ⟨fun k => if k = s3Key document_id then some content else st.docs k⟩)
  else if cfg.storageType = "dynamodb" then
    if ¬ cfg.dynamodbInit then (false, st)
    else if fault then (false, st)
    else (true, ⟨fun k => if k = document_id then some content else st.docs k⟩)
  else if cfg.storageType = "rds" then (false, st)
  else (false, st)

/-- `retrieve_document` (main.py lines 144-186).  Returns the stored content,
or `None` when the backend signals not-found (`NoSuchKey`/`404`, missing
item).  Crucially, every other exception — including the non-not-found
`ClientError` that line 164 re-raises — is caught by the outer
`except Exception` at line 184 and also yields `None`, so a transport or
backend failure is indistinguishable from not-found in the return value.
`"rds"` and unrecognized backends also return `None`. -/
def retrieve_document (cfg : Config) (st : StorageState) (fault : Bool)
    (document_id : String) : Option String :=
  if cfg.storageType = "s3" then
    if ¬ cfg.s3ClientInit then none
    else if fault then none
    else st.docs (s3Key document_id)
  else if cfg.storageType = "dynamodb" then
    if ¬ cfg.dynamodbInit then none
    else if fault then none
    else st.docs document_id
  else if cfg.storageType = "rds" then none
  else none

/-- `get_from_cache` (main.py lines 189-206).  `None` when the cache client is
absent or the redis call raises; otherwise the Python test `if cached:` means
a cached empty string is also reported as a miss (`None`). -/
def get_from_cache (cs : CacheState) (fault : Bool) (document_id : String) :
    Option String :=
  if ¬ cs.present then none
  else if fault then none
  else
    let cached := cs.entries (cacheKey document_id)
    if pyTruthy cached then cached else none

/-- `set_in_cache` (main.py lines 209-223).  No-op returning `False` when the
client is absent or `setex` raises; otherwise stores the entry (the TTL only
bounds how long the entry stays in `entries`, which the embedding leaves to
the cache). -/
def set_in_cache (cs : CacheState) (fault : Bool) (document_id content : String) :
    Bool × CacheState :=
  if ¬ cs.present then (false, cs)
  else if fault then (false, cs)
  else (true, ⟨cs.present,
    fun k => if k = cacheKey document_id then some content else cs.entries k⟩)

/-- `invalidate_cache` (main.py lines 226-237).  No-op when the client is
absent or `delete` raises; otherwise removes the entry. -/
def invalidate_cache (cs : CacheState) (fault : Bool) (document_id : String) :
    CacheState :=
  if ¬ cs.present then cs
  else if fault then cs
  else ⟨cs.present, fun k => if k = cacheKey document_id then none else cs.entries k⟩

/-- Outcome of `PUT /documents/{id}`: rejected by `DocumentRequest` model
validation, stored (the `{"id", "status": "stored", "size"}` body), or an
`HTTPException` with the given status code. -/
inductive PutResult where
  | validationError
  | stored (id : String) (size : Nat)
  | httpError (code : Nat)
  deriving DecidableEq

/-- Outcome of `GET /documents/{id}`: a `DocumentResponse` payload (id and
content; `created_at` is wall-clock and outside the embedding) or an
`HTTPException` with the given status code. -/
inductive GetResult where
  | ok (id : String) (content : String)
  | httpError (code : Nat)
  deriving DecidableEq

/-- The `put_document` handler body (main.py lines 302-339), reached after
request-model validation.  Size check first (400), then `store_document`
(500 on failure, with the cache untouched), then `invalidate_cache`, then the
success body. -/
def put_document (cfg : Config) (ss : StorageState) (cs : CacheState) (f : Faults)
    (document_id content : String) : PutResult × StorageState × CacheState :=
  if content.length > MAX_CONTENT_SIZE then (PutResult.httpError 400, ss, cs)
  else
    let r := store_document cfg ss f.storagePut document_id content
    if ¬ r.1 then (PutResult.httpError 500, r.2, cs)
    else (PutResult.stored document_id content.length, r.2,
      invalidate_cache cs f.cacheDelete document_id)

/-- `DocumentRequest` validation (main.py lines 40-41):
`Field(..., min_length=1, max_length=MAX_CONTENT_SIZE)`.  The framework runs
this on the request body before the handler, so it precedes all I/O. -/
def documentRequestValid (content : String) : Bool :=
  decide (1 ≤ content.length) && decide (content.length ≤ MAX_CONTENT_SIZE)

/-- Full `PUT /documents/{id}` route: `DocumentRequest` validation, then the
handler body. -/
def put_document_route (cfg : Config) (ss : StorageState) (cs : CacheState)
    (f : Faults) (document_id content : String) :
    PutResult × StorageState × CacheState :=
  if documentRequestValid content then put_document cfg ss cs f document_id content
  else (PutResult.validationError, ss, cs)

/-- The `get_document` handler (main.py lines 342-382): cache first (the
Python test `if cached_content:`), on miss `retrieve_document`, 404 when that
returns `None`, otherwise populate the cache (failure non-fatal) and return
the content. -/
def get_document (cfg : Config) (ss : StorageState) (cs : CacheState) (f : Faults)
    (document_id : String) : GetResult × CacheState :=
  let cached_content := get_from_cache cs f.cacheGet document_id
  if pyTruthy cached_content then
    (GetResult.ok document_id (cached_content.getD ""), cs)
  else
    match retrieve_document cfg ss f.storageGet document_id with
    | none => (GetResult.httpError 404, cs)
    | some content =>
        let r := set_in_cache cs f.cacheSet document_id content
        (GetResult.ok document_id content, r.2)

/-- `_check_storage_health` (main.py lines 240-263): per-backend probe;
`fault` is the probe call raising. -/
def _check_storage_health (cfg : Config) (fault : Bool) : String :=
  if cfg.storageType = "s3" then
    if ¬ cfg.s3ClientInit then "unavailable"
    else if fault then "error"
    else "ok"
  else if cfg.storageType = "dynamodb" then
    if ¬ cfg.dynamodbInit then "unavailable"
    else if fault then "error"
    else "ok"
  else if cfg.storageType = "rds" then "not_implemented"
  else "unknown"

/-- `_check_cache_health` (main.py lines 266-276). -/
def _check_cache_health (cfg : Config) (cs : CacheState) (fault : Bool) : String :=
  if ¬ cfg.cacheEnabled then "disabled"
  else if ¬ cs.present then "unavailable"
  else if fault then "error"
  else "ok"

/-- Body of the `/health` response (status, service, version omitted as
constants, storage, cache). -/
structure HealthReport where
  status : String
  storage : String
  cache : String
  deriving DecidableEq

/-- The `/health` endpoint (main.py lines 279-299): HTTP status code paired
with the body.  Line 299 is
`return health_status if status_code == 200 else (health_status)` — the bare
dict is returned on both branches and the locally computed `status_code` is
never attached to the response, so the framework default HTTP status `200`
applies to every response; the pair's first component records that. -/
def health_check (cfg : Config) (cs : CacheState) (storageFault cacheFault : Bool) :
    Nat × HealthReport :=
  let storage_status := _check_storage_health cfg storageFault
  let cache_status := _check_cache_health cfg cs cacheFault
  let overall :=
    if storage_status = "ok" ∧ (cache_status = "ok" ∨ cache_status = "disabled")
    then "healthy" else "unhealthy"
  let health_status : HealthReport := ⟨overall, storage_status, cache_status⟩
  let status_code := if overall = "healthy" then 200 else 503
  (200, if status_code = 200 then health_status else health_status)

/-- A configuration under which the active durable backend works: the
selected backend's client handle is initialized. -/
def storageReady (cfg : Config) : Bool :=
  (cfg.storageType == "s3" && cfg.s3ClientInit)
    || (cfg.storageType == "dynamodb" && cfg.dynamodbInit)

/-- Whole-system state for request traces. -/
structure Sys where
  store : StorageState
  cache : CacheState

/-- One inbound request. -/
inductive Op where
  | put (id : String) (content : String)
  | get (id : String)

/-- Whether an operation is a write to the given id. -/
def isPutTo (id : String) : Op → Bool
  | Op.put i _ => i == id
  | Op.get _ => false

/-- State transition of one fault-free request (the response is dropped). -/
def runOp (cfg : Config) (s : Sys) : Op → Sys
  | Op.put id content =>
      let r := put_document_route cfg s.store s.cache noFaults id content
      ⟨r.2.1, r.2.2⟩
  | Op.get id =>
      let r := get_document cfg s.store s.cache noFaults id
      ⟨s.store, r.2⟩

/-- Run a list of fault-free requests in order. -/
def runOps (cfg : Config) (s : Sys) : List Op → Sys
  | [] => s
  | op :: ops => runOps cfg (runOp cfg s op) ops

/-- Cache-aside invariant for one document: durable storage holds `content`
under `id`, and the cache for `id` is either empty or agrees with storage. -/
def docCurrent (cfg : Config) (s : Sys) (id content : String) : Prop :=
  retrieve_document cfg s.store false id = some content ∧
  (get_from_cache s.cache false id = none ∨
    get_from_cache s.cache false id = some content)

/-! Concrete test vectors used by counterexample and witness theorems. -/

/-- S3 deployment with all clients initialized and caching enabled. -/
def cfgS3 : Config := ⟨"s3", true, false, true⟩

/-- `STORAGE_TYPE = "rds"`: startup leaves both backend handles `None`. -/
def cfgRds : Config := ⟨"rds", false, false, true⟩

/-- Empty durable store. -/
def ssEmpty : StorageState := ⟨fun _ => none⟩

/-- Durable store holding document `doc1` with body `hello` (S3 layout). -/
def ssOne : StorageState := ⟨fun k => if k = s3Key "doc1" then some "hello" else none⟩

/-- Cache whose client failed to initialize (`cache_client is None`). -/
def csNone : CacheState := ⟨false, fun _ => none⟩

/-- Reachable cache holding no entries (cold state). -/
def csCold : CacheState := ⟨true, fun _ => none⟩

/-- Reachable cache with an empty-string entry for `doc1`. -/
def csEmptyEntry : CacheState :=
  ⟨true, fun k => if k = cacheKey "doc1" then some "" else none⟩

/-- Reachable cache holding `world` for `doc1`. -/
def csHit : CacheState :=
  ⟨true, fun k => if k = cacheKey "doc1" then some "world" else none⟩

/-- Request whose storage read raises (transport failure on `get_object`). -/
def faultsStorageGet : Faults := ⟨false, true, false, false, false⟩

/-- Request whose storage write raises. -/
def faultsStoragePut : Faults := ⟨true, false, false, false, false⟩

/-- Request during which every cache call raises. -/
def faultsAllCache : Faults := ⟨false, false, true, true, true⟩

/-- A string of length `n` (test vector for the size boundary). -/
def contentOfLength (n : Nat) : String := String.mk (List.replicate n 'a')

/-- Freshly started system: empty durable store, reachable cold cache. -/
def sysInit : Sys := ⟨ssEmpty, csCold⟩



/-! ### Helper lemmas -/

theorem get_from_cache_eq_some {cs : CacheState} {b : Bool} {id c : String}
    (h : get_from_cache cs b id = some c) :
    c.isEmpty = false ∧ cs.entries (cacheKey id) = some c := by
  unfold get_from_cache at h
  cases hp : cs.present
  · simp [hp] at h
  · cases hb : b
    · simp [hp, hb] at h
      rcases he : cs.entries (cacheKey id) with _ | v
      · rw [he] at h
        simp [pyTruthy] at h
      · rw [he] at h
        cases hv : v.isEmpty
        · simp [pyTruthy, hv] at h
          subst h
          exact ⟨hv, rfl⟩
        · simp [pyTruthy, hv] at h
    · simp [hp, hb] at h

theorem get_from_cache_absent {cs : CacheState} (b : Bool) (id : String)
    (h : cs.present = false) : get_from_cache cs b id = none := by
  simp [get_from_cache, h]

theorem get_from_cache_fault (cs : CacheState) (id : String) :
    get_from_cache cs true id = none := by
  unfold get_from_cache
  cases hp : cs.present <;> simp [hp]

theorem get_from_cache_no_entry {cs : CacheState} (b : Bool) (id : String)
    (h : cs.entries (cacheKey id) = none) : get_from_cache cs b id = none := by
  unfold get_from_cache
  cases hp : cs.present
  · simp [hp]
  · cases hb : b <;> simp [hp, hb, h, pyTruthy]

theorem get_document_hit {cfg : Config} {ss : StorageState} {cs : CacheState}
    {f : Faults} {id c : String} (h : get_from_cache cs f.cacheGet id = some c) :
    get_document cfg ss cs f id = (GetResult.ok id c, cs) := by
  obtain ⟨hne, -⟩ := get_from_cache_eq_some h
  unfold get_document
  rw [h]
  simp [pyTruthy, hne]

theorem get_document_miss_fst {cfg : Config} {ss : StorageState} {cs : CacheState}
    {f : Faults} {id : String} (h : get_from_cache cs f.cacheGet id = none) :
    (get_document cfg ss cs f id).1 =
      (match retrieve_document cfg ss f.storageGet id with
        | none => GetResult.httpError 404
        | some content => GetResult.ok id content) := by
  unfold get_document
  rw [h]
  rcases hr : retrieve_document cfg ss f.storageGet id with _ | v <;>
    simp [pyTruthy, hr]

theorem put_document_cache_independent (cfg : Config) (ss : StorageState)
    (cs cs2 : CacheState) (f f2 : Faults) (id content : String)
    (hsp : f.storagePut = f2.storagePut) :
    (put_document_route cfg ss cs f id content).1
        = (put_document_route cfg ss cs2 f2 id content).1
    ∧ (put_document_route cfg ss cs f id content).2.1
        = (put_document_route cfg ss cs2 f2 id content).2.1 := by
  simp only [put_document_route, put_document, hsp]
  split_ifs <;> simp

theorem store_document_fail_state {cfg : Config} {ss : StorageState} {b : Bool}
    {id content : String}
    (h : (store_document cfg ss b id content).1 = false) :
    (store_document cfg ss b id content).2 = ss := by
  unfold store_document at h ⊢
  split_ifs at h ⊢ <;> simp_all

/-! ### Claims -/

/-- C2: when the cache misses and the storage `get` fails with a transport or
backend error (not the backend's not-found signal), the code does NOT return
the internal failure (500) the claim requires: `retrieve_document` swallows
the re-raised error and returns `None`, which `get_document` maps to 404.
First conjunct: the durable record for `doc1` exists (a fault-free read
returns it); second conjunct: with the storage read raising, the same request
is answered with 404, the response the claim reserves for ids with no durable
record. -/
theorem C2_transport_failure_answered_as_404 :
    (get_document cfgS3 ssOne csNone noFaults "doc1").1 = GetResult.ok "doc1" "hello"
    ∧ (get_document cfgS3 ssOne csNone faultsStorageGet "doc1").1 = GetResult.httpError 404 :=
  ⟨by decide, by decide⟩

/-- C3: the `/health` endpoint never answers 503.  Line 299 returns the bare
body on both branches of `status_code`, so the framework default 200 applies
to every response: first conjunct, all responses carry HTTP status 200;
second conjunct, a concrete unhealthy probe (storage probe raising) still
gets HTTP 200 while its body says `"unhealthy"`; third conjunct, the healthy
case does answer 200 as claimed. -/
theorem C3_health_never_503 :
    (∀ (cfg : Config) (cs : CacheState) (sf cf : Bool),
      (health_check cfg cs sf cf).1 = 200)
    ∧ ((health_check cfgS3 csNone true false).1 = 200
        ∧ (health_check cfgS3 csNone true false).2.status = "unhealthy")
    ∧ ((health_check cfgS3 csCold false false).1 = 200
        ∧ (health_check cfgS3 csCold false false).2.status = "healthy") :=
  ⟨fun _ _ _ _ => rfl, ⟨rfl, by decide⟩, ⟨rfl, by decide⟩⟩

/-- C7: the health body reports `"healthy"` iff the storage probe reports
`"ok"` and the cache probe reports `"ok"` or `"disabled"`; in particular
storage ok + cache disabled is healthy, storage ok + cache error is
unhealthy, and storage error + cache ok is unhealthy. -/
theorem C7_health_aggregation (cfg : Config) (cs : CacheState) (sf cf : Bool) :
    ((health_check cfg cs sf cf).2.status = "healthy" ↔
      (_check_storage_health cfg sf = "ok"
        ∧ (_check_cache_health cfg cs cf = "ok"
            ∨ _check_cache_health cfg cs cf = "disabled")))
    ∧ (health_check ⟨"s3", true, false, false⟩ csNone false false).2.status = "healthy"
    ∧ (health_check cfgS3 csCold false true).2.status = "unhealthy"
    ∧ (health_check cfgS3 csCold true false).2.status = "unhealthy" := by
  refine ⟨?_, by decide, by decide, by decide⟩
  simp only [health_check]
  by_cases h : _check_storage_health cfg sf = "ok"
      ∧ (_check_cache_health cfg cs cf = "ok"
          ∨ _check_cache_health cfg cs cf = "disabled")
  · simp [h]
  · simp [h]

/-- C8: with the unimplemented backend `STORAGE_TYPE="rds"` selected, `put`
does report an internal StorageFailure (500), but `get` does not: it answers
404 not-found, a client-caused outcome, because `retrieve_document` returns
`None` for the rds branch and `get_document` maps `None` to 404 — even
though a durable record could never be read.  This refutes the "never a
client-caused outcome such as not-found" part of the claim. -/
theorem C8_rds_put_500_but_get_404 :
    (put_document_route cfgRds ssOne csNone noFaults "doc1" "hello").1
        = PutResult.httpError 500
    ∧ (get_document cfgRds ssOne csNone noFaults "doc1").1 = GetResult.httpError 404 :=
  ⟨by decide, by decide⟩

/-- C9: when the cache lookup hits, `get_document` returns the cached content
with the cache unchanged, and the whole response is independent of the
configuration, the durable store and the storage fault flags — the request
performs no Storage Backend operation. -/
theorem C9_cache_hit_skips_storage (cfg cfg2 : Config) (ss ss2 : StorageState)
    (cs : CacheState) (f f2 : Faults) (id c : String)
    (hhit : get_from_cache cs f.cacheGet id = some c)
    (hf2 : f2.cacheGet = f.cacheGet) :
    get_document cfg ss cs f id = (GetResult.ok id c, cs)
    ∧ get_document cfg2 ss2 cs f2 id = (GetResult.ok id c, cs) :=
  ⟨get_document_hit hhit, get_document_hit (by rw [hf2]; exact hhit)⟩

/-- C9 witness: a concrete cache hit for `doc1` is served from the cache and
the response does not change when the configuration, store and storage fault
flags change. -/
theorem C9_cache_hit_skips_storage_witness :
    get_from_cache csHit noFaults.cacheGet "doc1" = some "world"
    ∧ faultsStorageGet.cacheGet = noFaults.cacheGet
    ∧ (get_document cfgS3 ssEmpty csHit noFaults "doc1"
          = (GetResult.ok "doc1" "world", csHit)
        ∧ get_document cfgRds ssOne csHit faultsStorageGet "doc1"
          = (GetResult.ok "doc1" "world", csHit)) :=
  ⟨by decide, rfl,
    C9_cache_hit_skips_storage cfgS3 cfgRds ssEmpty ssOne csHit noFaults
      faultsStorageGet "doc1" "world" (by decide) rfl⟩

/-- C10: a cached empty string is treated as a miss on the read path:
`get_from_cache` reports `none` (its `if cached:` truthiness test fails), and
the response of `get_document` is exactly what the Storage Backend read
determines — the cached empty content is never served. -/
theorem C10_empty_cache_entry_read_as_miss (cfg : Config) (ss : StorageState)
    (cs : CacheState) (f : Faults) (id : String)
    (hentry : cs.entries (cacheKey id) = some "") (hfg : f.cacheGet = false) :
    get_from_cache cs f.cacheGet id = none
    ∧ (get_document cfg ss cs f id).1 =
        (match retrieve_document cfg ss f.storageGet id with
          | none => GetResult.httpError 404
          | some content => GetResult.ok id content) := by
  have h1 : get_from_cache cs f.cacheGet id = none := by
    unfold get_from_cache
    cases hp : cs.present
    · simp [hp]
    · simp [hp, hfg, hentry, pyTruthy, String.isEmpty]
  exact ⟨h1, get_document_miss_fst h1⟩

/-- C10 witness: with an empty-string cache entry for `doc1` and a durable
record `hello`, the cache lookup misses and the read is answered from
storage. -/
theorem C10_empty_cache_entry_read_as_miss_witness :
    csEmptyEntry.entries (cacheKey "doc1") = some ""
    ∧ noFaults.cacheGet = false
    ∧ (get_from_cache csEmptyEntry noFaults.cacheGet "doc1" = none
        ∧ (get_document cfgS3 ssOne csEmptyEntry noFaults "doc1").1 =
            (match retrieve_document cfgS3 ssOne noFaults.storageGet "doc1" with
              | none => GetResult.httpError 404
              | some content => GetResult.ok "doc1" content)) :=
  ⟨by decide, rfl,
    C10_empty_cache_entry_read_as_miss cfgS3 ssOne csEmptyEntry noFaults "doc1"
      (by decide) rfl⟩


theorem store_document_ok {cfg : Config} (hready : storageReady cfg = true)
    (ss : StorageState) (id content : String) :
    (store_document cfg ss false id content).1 = true := by
  unfold storageReady at hready
  simp only [Bool.or_eq_true, Bool.and_eq_true, beq_iff_eq] at hready
  unfold store_document
  rcases hready with ⟨h1, h2⟩ | ⟨h1, h2⟩
  · simp [h1, h2]
  · simp [h1, h2]

theorem contentOfLength_length (n : Nat) : (contentOfLength n).length = n := by
  simp [contentOfLength, String.length_mk, List.length_replicate]

/-- C4: content of exactly 102400 characters passes both validation layers and
is stored; 102401 characters is rejected by `DocumentRequest` model
validation — and would be rejected with the handler's own pre-I/O
`HTTPException 400` even if it reached the handler — and 0 characters is
rejected by model validation; in every rejection the durable store and the
cache are returned untouched, i.e. validation precedes all I/O. -/
theorem C4_size_boundary (cfg : Config) (ss : StorageState) (cs : CacheState)
    (f : Faults) (id cOk cBig cEmpty : String)
    (hready : storageReady cfg = true)
    (hOk : cOk.length = 102400) (hBig : cBig.length = 102401)
    (hEmpty : cEmpty.length = 0) :
    (put_document_route cfg ss cs noFaults id cOk).1 = PutResult.stored id 102400
    ∧ put_document_route cfg ss cs f id cBig = (PutResult.validationError, ss, cs)
    ∧ put_document cfg ss cs f id cBig = (PutResult.httpError 400, ss, cs)
    ∧ put_document_route cfg ss cs f id cEmpty = (PutResult.validationError, ss, cs) := by
  refine ⟨?_, ?_, ?_, ?_⟩
  · have hvOk : documentRequestValid cOk = true := by
      unfold documentRequestValid MAX_CONTENT_SIZE
      rw [hOk]
      decide
    have hs : (store_document cfg ss false id cOk).1 = true :=
      store_document_ok hready ss id cOk
    unfold put_document_route put_document
    rw [hvOk, hOk]
    simp [noFaults, MAX_CONTENT_SIZE, hs]
  · have hv : documentRequestValid cBig = false := by
      unfold documentRequestValid MAX_CONTENT_SIZE
      rw [hBig]
      decide
    unfold put_document_route
    rw [hv]
    simp
  · unfold put_document
    rw [hBig]
    simp [MAX_CONTENT_SIZE]
  · have hv : documentRequestValid cEmpty = false := by
      unfold documentRequestValid MAX_CONTENT_SIZE
      rw [hEmpty]
      decide
    unfold put_document_route
    rw [hv]
    simp

/-- C4 witness: the boundary at the concrete lengths 102400, 102401, 0 on an
S3 deployment. -/
theorem C4_size_boundary_witness :
    storageReady cfgS3 = true
    ∧ (contentOfLength 102400).length = 102400
    ∧ (contentOfLength 102401).length = 102401
    ∧ ("" : String).length = 0
    ∧ ((put_document_route cfgS3 ssEmpty csCold noFaults "doc1" (contentOfLength 102400)).1
          = PutResult.stored "doc1" 102400
        ∧ put_document_route cfgS3 ssEmpty csCold faultsAllCache "doc1" (contentOfLength 102401)
          = (PutResult.validationError, ssEmpty, csCold)
        ∧ put_document cfgS3 ssEmpty csCold faultsAllCache "doc1" (contentOfLength 102401)
          = (PutResult.httpError 400, ssEmpty, csCold)
        ∧ put_document_route cfgS3 ssEmpty csCold faultsAllCache "doc1" ""
          = (PutResult.validationError, ssEmpty, csCold)) :=
  ⟨by decide, contentOfLength_length 102400, contentOfLength_length 102401, rfl,
    C4_size_boundary cfgS3 ssEmpty csCold faultsAllCache "doc1" (contentOfLength 102400)
      (contentOfLength 102401) "" (by decide) (contentOfLength_length 102400)
      (contentOfLength_length 102401) rfl⟩

/-- C5: when the storage backend `put` fails on a valid write, `put_document`
answers 500 and returns the durable store and the cache exactly as they were:
no cache operation is performed by the failed write. -/
theorem C5_put_storage_failure_no_cache_op (cfg : Config) (ss : StorageState)
    (cs : CacheState) (f : Faults) (id content : String)
    (hlen : content.length ≤ MAX_CONTENT_SIZE)
    (hfail : (store_document cfg ss f.storagePut id content).1 = false) :
    put_document cfg ss cs f id content = (PutResult.httpError 500, ss, cs) := by
  have hstate := store_document_fail_state hfail
  unfold put_document
  rw [if_neg (Nat.not_lt.mpr hlen)]
  simp [hfail, hstate]

/-- C5 witness: a concrete failed S3 `put_object` aborts the write with 500
and leaves a populated cache entry for the same id in place. -/
theorem C5_put_storage_failure_no_cache_op_witness :
    ("hello" : String).length ≤ MAX_CONTENT_SIZE
    ∧ (store_document cfgS3 ssEmpty faultsStoragePut.storagePut "doc1" "hello").1 = false
    ∧ put_document cfgS3 ssEmpty csHit faultsStoragePut "doc1" "hello"
        = (PutResult.httpError 500, ssEmpty, csHit) :=
  ⟨by decide, by decide,
    C5_put_storage_failure_no_cache_op cfgS3 ssEmpty csHit faultsStoragePut "doc1" "hello"
      (by decide) (by decide)⟩

/-- C6: with the cache client absent (`csA`), or with every cache call
raising on a present cache (`csF` under `fc`), the cache layer degrades —
`get` to a miss, `set` and `delete` to no-ops — and the response and durable
store of both `put_document` (full route) and `get_document` are identical to
those produced with a working cache in cold (empty) state; in particular no
request fails because the cache is unavailable. -/
theorem C6_cache_unavailability_transparent (cfg : Config) (ss : StorageState)
    (csA csF : CacheState) (f fc : Faults) (id content : String)
    (hA : csA.present = false)
    (hg : fc.cacheGet = true) (hs : fc.cacheSet = true) (hd : fc.cacheDelete = true)
    (hsp : fc.storagePut = f.storagePut) (hsg : fc.storageGet = f.storageGet) :
    (get_from_cache csA f.cacheGet id = none
      ∧ set_in_cache csA f.cacheSet id content = (false, csA)
      ∧ invalidate_cache csA f.cacheDelete id = csA
      ∧ (put_document_route cfg ss csA f id content).1
          = (put_document_route cfg ss csCold f id content).1
      ∧ (put_document_route cfg ss csA f id content).2.1
          = (put_document_route cfg ss csCold f id content).2.1
      ∧ (get_document cfg ss csA f id).1 = (get_document cfg ss csCold f id).1)
    ∧ (get_from_cache csF fc.cacheGet id = none
      ∧ set_in_cache csF fc.cacheSet id content = (false, csF)
      ∧ invalidate_cache csF fc.cacheDelete id = csF
      ∧ (put_document_route cfg ss csF fc id content).1
          = (put_document_route cfg ss csCold f id content).1
      ∧ (put_document_route cfg ss csF fc id content).2.1
          = (put_document_route cfg ss csCold f id content).2.1
      ∧ (get_document cfg ss csF fc id).1 = (get_document cfg ss csCold f id).1) := by
  have hcold : ∀ b : Bool, get_from_cache csCold b id = none := fun b =>
    get_from_cache_no_entry b id rfl
  refine ⟨⟨get_from_cache_absent f.cacheGet id hA, ?_, ?_, ?_, ?_, ?_⟩,
    ⟨?_, ?_, ?_, ?_, ?_, ?_⟩⟩
  · unfold set_in_cache
    simp [hA]
  · unfold invalidate_cache
    simp [hA]
  · exact (put_document_cache_independent cfg ss csA csCold f f id content rfl).1
  · exact (put_document_cache_independent cfg ss csA csCold f f id content rfl).2
  · rw [get_document_miss_fst (get_from_cache_absent f.cacheGet id hA),
      get_document_miss_fst (hcold f.cacheGet)]
  · rw [hg]
    exact get_from_cache_fault csF id
  · unfold set_in_cache
    cases hp : csF.present <;> simp [hp, hs]
  · unfold invalidate_cache
    cases hp : csF.present <;> simp [hp, hd]
  · exact (put_document_cache_independent cfg ss csF csCold fc f id content hsp).1
  · exact (put_document_cache_independent cfg ss csF csCold fc f id content hsp).2
  · rw [get_document_miss_fst (by rw [hg]; exact get_from_cache_fault csF id),
      get_document_miss_fst (hcold f.cacheGet), hsg]

/-- C6 witness: concrete reads and writes behave identically with the cache
client absent, with every cache call raising on a populated cache, and with a
working cold cache. -/
theorem C6_cache_unavailability_transparent_witness :
    csNone.present = false
    ∧ faultsAllCache.cacheGet = true
    ∧ faultsAllCache.cacheSet = true
    ∧ faultsAllCache.cacheDelete = true
    ∧ faultsAllCache.storagePut = noFaults.storagePut
    ∧ faultsAllCache.storageGet = noFaults.storageGet
    ∧ ((get_from_cache csNone noFaults.cacheGet "doc1" = none
        ∧ set_in_cache csNone noFaults.cacheSet "doc1" "hello" = (false, csNone)
        ∧ invalidate_cache csNone noFaults.cacheDelete "doc1" = csNone
        ∧ (put_document_route cfgS3 ssOne csNone noFaults "doc1" "hello").1
            = (put_document_route cfgS3 ssOne csCold noFaults "doc1" "hello").1
        ∧ (put_document_route cfgS3 ssOne csNone noFaults "doc1" "hello").2.1
            = (put_document_route cfgS3 ssOne csCold noFaults "doc1" "hello").2.1
        ∧ (get_document cfgS3 ssOne csNone noFaults "doc1").1
            = (get_document cfgS3 ssOne csCold noFaults "doc1").1)
      ∧ (get_from_cache csHit faultsAllCache.cacheGet "doc1" = none
        ∧ set_in_cache csHit faultsAllCache.cacheSet "doc1" "hello" = (false, csHit)
        ∧ invalidate_cache csHit faultsAllCache.cacheDelete "doc1" = csHit
        ∧ (put_document_route cfgS3 ssOne csHit faultsAllCache "doc1" "hello").1
            = (put_document_route cfgS3 ssOne csCold noFaults "doc1" "hello").1
        ∧ (put_document_route cfgS3 ssOne csHit faultsAllCache "doc1" "hello").2.1
            = (put_document_route cfgS3 ssOne csCold noFaults "doc1" "hello").2.1
        ∧ (get_document cfgS3 ssOne csHit faultsAllCache "doc1").1
            = (get_document cfgS3 ssOne csCold noFaults "doc1").1)) :=
  ⟨rfl, rfl, rfl, rfl, rfl, rfl,
    C6_cache_unavailability_transparent cfgS3 ssOne csNone csHit noFaults faultsAllCache
      "doc1" "hello" rfl rfl rfl rfl rfl rfl⟩


/-! ### Cache-aside trace machinery for C1 -/

theorem s3Key_inj {a b : String} (h : s3Key a = s3Key b) : a = b := by
  have hd := congrArg String.data h
  simp only [s3Key, String.data_append] at hd
  exact String.ext (List.append_cancel_left hd)

theorem cacheKey_inj {a b : String} (h : cacheKey a = cacheKey b) : a = b := by
  have hd := congrArg String.data h
  simp only [cacheKey, String.data_append] at hd
  exact String.ext (List.append_cancel_left hd)

theorem retrieve_after_store {cfg : Config} (hready : storageReady cfg = true)
    (ss : StorageState) (id content id2 : String) :
    retrieve_document cfg (store_document cfg ss false id content).2 false id2
      = if id2 = id then some content else retrieve_document cfg ss false id2 := by
  unfold storageReady at hready
  simp only [Bool.or_eq_true, Bool.and_eq_true, beq_iff_eq] at hready
  have hkey : ∀ x y : String, (s3Key x = s3Key y) ↔ x = y :=
    fun x y => ⟨fun h => s3Key_inj h, fun h => by rw [h]⟩
  rcases hready with ⟨h1, h2⟩ | ⟨h1, h2⟩ <;>
    · unfold store_document retrieve_document
      simp [h1, h2, hkey]

theorem get_from_cache_invalidate_self (cs : CacheState) (id : String) :
    get_from_cache (invalidate_cache cs false id) false id = none := by
  unfold invalidate_cache
  cases hp : cs.present
  · simp [hp]
    exact get_from_cache_absent false id hp
  · simp [hp]
    exact get_from_cache_no_entry false id (by simp)

theorem get_from_cache_invalidate_other (cs : CacheState) (id id2 : String)
    (h : id2 ≠ id) :
    get_from_cache (invalidate_cache cs false id) false id2
      = get_from_cache cs false id2 := by
  have hk : cacheKey id2 ≠ cacheKey id := fun hc => h (cacheKey_inj hc)
  unfold invalidate_cache get_from_cache
  cases hp : cs.present
  · simp [hp]
  · simp [hp, hk]

theorem get_from_cache_set_other (cs : CacheState) (id id2 content : String)
    (h : id2 ≠ id) :
    get_from_cache (set_in_cache cs false id content).2 false id2
      = get_from_cache cs false id2 := by
  have hk : cacheKey id2 ≠ cacheKey id := fun hc => h (cacheKey_inj hc)
  unfold set_in_cache get_from_cache
  cases hp : cs.present
  · simp [hp]
  · simp [hp, hk]

theorem get_from_cache_set_self (cs : CacheState) (id content : String) :
    get_from_cache (set_in_cache cs false id content).2 false id = none
    ∨ get_from_cache (set_in_cache cs false id content).2 false id = some content := by
  unfold set_in_cache
  cases hp : cs.present
  · simp [hp]
    exact Or.inl (get_from_cache_absent false id hp)
  · simp only [hp, Bool.true_eq_false, not_false_eq_true, Bool.not_eq_true,
      if_neg, ite_false, ite_true]
    cases hce : content.isEmpty
    · right
      unfold get_from_cache
      simp [pyTruthy, hce]
    · left
      unfold get_from_cache
      simp [pyTruthy, hce]

theorem get_document_miss {cfg : Config} {ss : StorageState} {cs : CacheState}
    {f : Faults} {id : String} (h : get_from_cache cs f.cacheGet id = none) :
    get_document cfg ss cs f id
      = match retrieve_document cfg ss f.storageGet id with
        | none => (GetResult.httpError 404, cs)
        | some content => (GetResult.ok id content, (set_in_cache cs f.cacheSet id content).2) := by
  unfold get_document
  rw [h]
  rcases hr : retrieve_document cfg ss f.storageGet id with _ | v <;> simp [pyTruthy, hr]

theorem put_route_invalid {cfg : Config} {ss : StorageState} {cs : CacheState}
    {f : Faults} {id content : String} (hv : documentRequestValid content = false) :
    put_document_route cfg ss cs f id content = (PutResult.validationError, ss, cs) := by
  unfold put_document_route
  rw [hv]
  simp

theorem put_route_noFaults {cfg : Config} (hready : storageReady cfg = true)
    (ss : StorageState) (cs : CacheState) (id content : String)
    (hv : documentRequestValid content = true) :
    put_document_route cfg ss cs noFaults id content
      = (PutResult.stored id content.length,
          (store_document cfg ss false id content).2,
          invalidate_cache cs false id) := by
  have hlen : ¬ (content.length > MAX_CONTENT_SIZE) := by
    simp [documentRequestValid] at hv
    exact Nat.not_lt.mpr hv.2
  have hs := store_document_ok hready ss id content
  unfold put_document_route put_document
  rw [hv]
  simp only [noFaults, if_true, ite_true]
  rw [if_neg hlen]
  simp [hs]

theorem docCurrent_get (cfg : Config) (s : Sys) (id content : String)
    (h : docCurrent cfg s id content) :
    (get_document cfg s.store s.cache noFaults id).1 = GetResult.ok id content := by
  obtain ⟨hstore, hcache⟩ := h
  rcases hcache with hc | hc
  · have h1 : get_from_cache s.cache noFaults.cacheGet id = none := hc
    rw [get_document_miss_fst h1]
    have h2 : retrieve_document cfg s.store noFaults.storageGet id = some content := hstore
    rw [h2]
  · have h1 : get_from_cache s.cache noFaults.cacheGet id = some content := hc
    rw [get_document_hit h1]

theorem docCurrent_runOp {cfg : Config} (hready : storageReady cfg = true)
    {s : Sys} {id content : String} (h : docCurrent cfg s id content)
    (op : Op) (hop : isPutTo id op = false) :
    docCurrent cfg (runOp cfg s op) id content := by
  obtain ⟨hstore, hcache⟩ := h
  cases op with
  | put id2 c2 =>
      have hne : id2 ≠ id := by
        simpa [isPutTo, beq_eq_false_iff_ne] using hop
      simp only [runOp]
      cases hv : documentRequestValid c2
      · rw [put_route_invalid hv]
        exact ⟨hstore, hcache⟩
      · rw [put_route_noFaults hready s.store s.cache id2 c2 hv]
        refine ⟨?_, ?_⟩
        · rw [retrieve_after_store hready s.store id2 c2 id, if_neg (Ne.symm hne)]
          exact hstore
        · rw [get_from_cache_invalidate_other s.cache id2 id (Ne.symm hne)]
          exact hcache
  | get id2 =>
      simp only [runOp]
      rcases hgc : get_from_cache s.cache noFaults.cacheGet id2 with _ | v
      · rw [get_document_miss hgc]
        rcases hr : retrieve_document cfg s.store noFaults.storageGet id2 with _ | w
        · exact ⟨hstore, hcache⟩
        · refine ⟨hstore, ?_⟩
          by_cases hid : id2 = id
          · subst hid
            have hw : w = content := by
              have h3 : retrieve_document cfg s.store false id2 = some w := hr
              rw [hstore] at h3
              exact (Option.some.inj h3).symm
            subst hw
            exact get_from_cache_set_self s.cache id2 w
          · rw [show (noFaults.cacheSet) = false from rfl,
              get_from_cache_set_other s.cache id2 id w (fun he => hid he.symm)]
            exact hcache
      · rw [get_document_hit hgc]
        exact ⟨hstore, hcache⟩

theorem docCurrent_runOps {cfg : Config} (hready : storageReady cfg = true)
    {id content : String} :
    ∀ (ops : List Op) (s : Sys), docCurrent cfg s id content →
      (∀ op ∈ ops, isPutTo id op = false) →
      docCurrent cfg (runOps cfg s ops) id content := by
  intro ops
  induction ops with
  | nil =>
      intro s h _
      exact h
  | cons op ops ih =>
      intro s h hops
      unfold runOps
      exact ih (runOp cfg s op)
        (docCurrent_runOp hready h op (hops op (List.mem_cons_self op ops)))
        (fun o ho => hops o (List.mem_cons_of_mem op ho))

theorem docCurrent_after_put {cfg : Config} (hready : storageReady cfg = true)
    (s0 : Sys) (id content : String) (hv : documentRequestValid content = true) :
    docCurrent cfg (runOp cfg s0 (Op.put id content)) id content := by
  simp only [runOp]
  rw [put_route_noFaults hready s0.store s0.cache id content hv]
  refine ⟨?_, ?_⟩
  · rw [retrieve_after_store hready s0.store id content id, if_pos rfl]
  · exact Or.inl (get_from_cache_invalidate_self s0.cache id)

/-- C1: on a working backend, after a fault-free successful write of `content`
to `id` (a `put_document` that returns the stored body), every later
fault-free read of `id` returns `content` — whether it is served from the
cache or from storage — as long as no other write to `id` happens in between
(`ops` may contain arbitrary reads and writes to other ids); and the
four-step sequence write `c1`, read, write `c2`, read answers the final read
with `c2`, never the stale `c1`. -/
theorem C1_cache_aside_read_your_write (cfg : Config) (s0 : Sys)
    (id content c1 c2 : String) (ops : List Op)
    (hready : storageReady cfg = true)
    (hv : documentRequestValid content = true)
    (hops : ∀ op ∈ ops, isPutTo id op = false)
    (hv1 : documentRequestValid c1 = true)
    (hv2 : documentRequestValid c2 = true) :
    (get_document cfg (runOps cfg (runOp cfg s0 (Op.put id content)) ops).store
        (runOps cfg (runOp cfg s0 (Op.put id content)) ops).cache noFaults id).1
      = GetResult.ok id content
    ∧ (get_document cfg
          (runOps cfg s0 [Op.put id c1, Op.get id, Op.put id c2]).store
          (runOps cfg s0 [Op.put id c1, Op.get id, Op.put id c2]).cache
          noFaults id).1
      = GetResult.ok id c2 := by
  have h1 := hv1
  refine ⟨?_, ?_⟩
  · exact docCurrent_get cfg _ id content
      (docCurrent_runOps hready ops _ (docCurrent_after_put hready s0 id content hv) hops)
  · have e : runOps cfg s0 [Op.put id c1, Op.get id, Op.put id c2]
        = runOp cfg (runOp cfg (runOp cfg s0 (Op.put id c1)) (Op.get id)) (Op.put id c2) := rfl
    rw [e]
    exact docCurrent_get cfg _ id c2
      (docCurrent_after_put hready (runOp cfg (runOp cfg s0 (Op.put id c1)) (Op.get id)) id c2 hv2)

/-- C1 witness: on a fresh S3 deployment, write `hello` to `doc1`, perform a
read of `doc1` (which populates the cache, so the final read is
cache-served), a read and a write of another id, then read `doc1`: the
answer is `hello`; and the sequence write `hello`, read, write `world`,
read answers `world`. -/
theorem C1_cache_aside_read_your_write_witness :
    storageReady cfgS3 = true
    ∧ documentRequestValid "hello" = true
    ∧ (∀ op ∈ [Op.get "doc1", Op.get "other", Op.put "other" "x"],
        isPutTo "doc1" op = false)
    ∧ documentRequestValid "world" = true
    ∧ ((get_document cfgS3
          (runOps cfgS3 (runOp cfgS3 sysInit (Op.put "doc1" "hello"))
            [Op.get "doc1", Op.get "other", Op.put "other" "x"]).store
          (runOps cfgS3 (runOp cfgS3 sysInit (Op.put "doc1" "hello"))
            [Op.get "doc1", Op.get "other", Op.put "other" "x"]).cache
          noFaults "doc1").1
        = GetResult.ok "doc1" "hello"
      ∧ (get_document cfgS3
          (runOps cfgS3 sysInit [Op.put "doc1" "hello", Op.get "doc1", Op.put "doc1" "world"]).store
          (runOps cfgS3 sysInit [Op.put "doc1" "hello", Op.get "doc1", Op.put "doc1" "world"]).cache
          noFaults "doc1").1
        = GetResult.ok "doc1" "world") :=
  ⟨by decide, by decide, by decide, by decide,
    C1_cache_aside_read_your_write cfgS3 sysInit "doc1" "hello" "hello" "world"
      [Op.get "doc1", Op.get "other", Op.put "other" "x"]
      (by decide) (by decide) (by decide) (by decide) (by decide)⟩

end DocumentService
